import Mathlib

/-
Verification of the Flame-FrameIO upload pipeline spec against the source.

Shallow embedding of the relevant program parts:
  - base-name derivation in frame_io_conform_uploader.upload_to_frameio
    (regex split at the last version marker) and in
    frame_io_shot_uploader.upload_to_frameio (regex split at the first
    artist+version marker);
  - the asset selection logic of lib/frame_io_api.find_fio_asset with the
    retry wrapper _retry_request and its error handling;
  - lib/frame_io_api.resolve_stack_root_id and version_asset;
  - the per-candidate loop of frame_io_conform_uploader.upload_to_frameio
    together with the catch_exception decorator semantics.

Machine strings are modelled as Lean String / List Char; Python dicts from
the service are modelled as structures with Option fields; a Python call
that may raise is modelled as an explicit result value (Call / Except);
the catch_exception decorator, which swallows any exception of the wrapped
method and makes the method return None, is modelled by mapping the raising
result to Option.none.
-/

/-! ## Base-name derivation

frame_io_conform_uploader.upload_to_frameio (lines 401-413):
  pattern = r'(_[vV]\d+)'
  matches = list(re.finditer(pattern, current_file_name))
  if matches: base = current_file_name[:matches[-1].start()]
  else: base = os.path.splitext(current_file_name)[0]

frame_io_shot_uploader.upload_to_frameio (lines 280-284):
  pattern = r'_[a-zA-Z]*?_[vV]\d+'
  base = re.split(pattern, file_name_only)[0]

Both regexes are fixed, so they are embedded directly as character-list
scanners rather than through a generic regex engine.  For the conform
pattern, a match of _[vV]\d+ starts exactly at every position holding an
underscore followed by v or V followed by a digit (no two match starts can
overlap a previous match's extent in a way that hides a later start, since
a match consumes only 'v'/'V' and digits after the underscore), so the
start of the last finditer match is the greatest such position.  For the
shot pattern, the lazy letter group can only stop at the underscore ending
the maximal letter run, so a match starts at position i exactly when the
maximal [a-zA-Z] run after the underscore at i is followed by '_', then
'v' or 'V', then a digit; re.split cuts at the smallest such i.
-/

def isVCh (c : Char) : Bool := c == 'v' || c == 'V'

/-- Conform-uploader version marker at the head of the list: _[vV]\d+ . -/
def vMarkerHead : List Char → Bool
  | '_' :: c :: d :: _ => isVCh c && d.isDigit
  | _ => false

/-- Position of the last conform version-marker match start, scanning the
whole suffix list; mirrors matches[-1].start() of re.finditer. -/
def lastVMarkerAux : List Char → Nat → Option Nat → Option Nat
  | [], _, acc => acc
  | l@(_ :: rest), i, acc =>
      lastVMarkerAux rest (i + 1) (if vMarkerHead l then some i else acc)

def lastVMarker (cs : List Char) : Option Nat := lastVMarkerAux cs 0 none

/-- Index of the last '.' in the list, if any; together with the non-dot
check below this embeds os.path.splitext applied to a basename (the inputs
come from os.path.basename, so no path separator occurs). -/
def lastDotAux : List Char → Nat → Option Nat → Option Nat
  | [], _, acc => acc
  | c :: rest, i, acc => lastDotAux rest (i + 1) (if c == '.' then some i else acc)

def lastDot (cs : List Char) : Option Nat := lastDotAux cs 0 none

def splitextRoot (cs : List Char) : List Char :=
  match lastDot cs with
  | none => cs
  | some j => if (cs.take j).any (fun c => !(c == '.')) then cs.take j else cs

/-- Base-name derivation of frame_io_conform_uploader.upload_to_frameio. -/
def conformBaseChars (cs : List Char) : List Char :=
  match lastVMarker cs with
  | some i => cs.take i
  | none => splitextRoot cs

def conformBaseName (s : String) : String := String.mk (conformBaseChars s.toList)

/-- Length of the maximal [a-zA-Z] run at the head of the list. -/
def letterRun : List Char → Nat
  | [] => 0
  | c :: rest => if c.isAlpha then letterRun rest + 1 else 0

/-- Shot-uploader marker at the head of the list: _[a-zA-Z]*?_[vV]\d+ .
The lazy letter group is forced to consume the maximal letter run, since
an underscore can only be matched after the letters stop. -/
def shotMarkerHead : List Char → Bool
  | '_' :: rest =>
      (match rest.drop (letterRun rest) with
       | '_' :: c :: d :: _ => isVCh c && d.isDigit
       | _ => false)
  | _ => false

/-- Position of the first shot-marker match, mirroring re.split's leftmost
match; none when the pattern does not occur. -/
def firstShotMarkerAux : List Char → Nat → Option Nat
  | [], _ => none
  | l@(_ :: rest), i =>
      if shotMarkerHead l then some i else firstShotMarkerAux rest (i + 1)

def firstShotMarker (cs : List Char) : Option Nat := firstShotMarkerAux cs 0

/-- Base-name derivation of frame_io_shot_uploader.upload_to_frameio:
re.split(pattern, name)[0]; when the pattern never matches, re.split
returns the whole name, extension included. -/
def shotBaseChars (cs : List Char) : List Char :=
  match firstShotMarker cs with
  | some i => cs.take i
  | none => cs

def shotBaseName (s : String) : String := String.mk (shotBaseChars s.toList)

/-! ## Asset locator: lib/frame_io_api.find_fio_asset (lines 457-531)

A search result item is a JSON object; the fields the function reads are
type, name, id and parent_id, each possibly absent (Option).  The
selection loop is:

    exact_match = None; ci_match = None; partial_match = None
    base_lower = base_name.lower()
    for item in data:
        if asset_type and item.get("type") != asset_type: continue
        name = (item.get("name") or "").strip()
        name_lower = name.lower()
        if name == base_name: exact_match = item; break
        if name_lower == base_lower and ci_match is None: ci_match = item
        if base_lower in name_lower and partial_match is None: partial_match = item
    item = exact_match or ci_match or partial_match

Python str.strip / str.lower are embedded for the ASCII range (the inputs
of interest are ASCII file names); 'in' on strings is contiguous substring
containment. -/

structure Item where
  itype : Option String
  iname : Option String
  iid : Option String
  parentId : Option String
deriving DecidableEq, Repr

def isPySpace (c : Char) : Bool :=
  c == ' ' || c == '\t' || c == '\n' || c == '\r' || c == '\x0b' || c == '\x0c'

/-- Python str.strip() with the default whitespace set. -/
def pyStrip (cs : List Char) : List Char :=
  ((cs.dropWhile isPySpace).reverse.dropWhile isPySpace).reverse

/-- Python str.lower() on the ASCII range. -/
def pyLower (cs : List Char) : List Char := cs.map Char.toLower

def listStartsWith : List Char → List Char → Bool
  | [], _ => true
  | _ :: _, [] => false
  | a :: as, b :: bs => a == b && listStartsWith as bs

/-- Python substring containment: needle in hay. -/
def hasSub (needle : List Char) : List Char → Bool
  | [] => listStartsWith needle []
  | c :: rest => listStartsWith needle (c :: rest) || hasSub needle rest

/-- name = (item.get("name") or "").strip() -/
def pyName (it : Item) : List Char := pyStrip (it.iname.getD "").toList

/-- if asset_type and item.get("type") != asset_type: continue.  A missing
type never equals a (truthy) filter string, so the item is skipped. -/
def typeKept (t : String) (it : Item) : Bool :=
  if t.isEmpty then true else it.itype == some t

def tier1 (base : String) (it : Item) : Bool := pyName it == base.toList

def tier2 (base : String) (it : Item) : Bool :=
  pyLower (pyName it) == pyLower base.toList

def tier3 (base : String) (it : Item) : Bool :=
  hasSub (pyLower base.toList) (pyLower (pyName it))

/-- First-of-two on options, i.e. Python's 'x or y' on two possibly-None
locals of the selection epilogue. -/
def oFirst (a b : Option Item) : Option Item :=
  match a with
  | some x => some x
  | none => b

/-- The selection loop with its two accumulators ci_match / partial_match;
an exact match breaks the loop and wins the epilogue's 'or' chain. -/
def findLoop (base t : String) : List Item → Option Item → Option Item → Option Item
  | [], ci, lo => oFirst ci lo
  | it :: rest, ci, lo =>
      if typeKept t it then
        if tier1 base it then some it
        else
          findLoop base t rest
            (oFirst ci (if tier2 base it then some it else none))
            (oFirst lo (if tier3 base it then some it else none))
      else findLoop base t rest ci lo

/-- The selected item of find_fio_asset for a given result list. -/
def findSelect (base t : String) (data : List Item) : Option Item :=
  findLoop base t data none none

/-- The tuple find_fio_asset returns once the data is in hand:
(item type, item id, item parent_id), or (None, None, None) when no item
was selected (this also covers the early 'if not data' return, since the
loop selects nothing from an empty list). -/
def findFioTriple (base t : String) (data : List Item) :
    Option String × Option String × Option String :=
  match findSelect base t data with
  | none => (none, none, none)
  | some it => (it.itype, it.iid, it.parentId)

/-- The locator policy as the spec words it (section 4.1): among the
type-filtered results in service order, the first exact name match, else
the first case-insensitive exact match, else the first case-insensitive
substring match, else none. -/
def locatorSpecPick (base t : String) (data : List Item) : Option Item :=
  oFirst ((data.filter (typeKept t)).find? (tier1 base))
    (oFirst ((data.filter (typeKept t)).find? (tier2 base))
      ((data.filter (typeKept t)).find? (tier3 base)))

theorem oFirst_some (x : Item) (b : Option Item) : oFirst (some x) b = some x := rfl

theorem oFirst_none (b : Option Item) : oFirst none b = b := rfl

theorem oFirst_assoc (a b c : Option Item) :
    oFirst (oFirst a b) c = oFirst a (oFirst b c) := by
  cases a <;> rfl

/-- Accumulator-generalised description of the selection loop. -/
theorem findLoop_eq (base t : String) (data : List Item) : ∀ ci lo : Option Item,
    findLoop base t data ci lo =
      oFirst ((data.filter (typeKept t)).find? (tier1 base))
        (oFirst (oFirst ci ((data.filter (typeKept t)).find? (tier2 base)))
          (oFirst lo ((data.filter (typeKept t)).find? (tier3 base)))) := by
  induction data with
  | nil => intro ci lo; cases ci <;> cases lo <;> rfl
  | cons it rest ih =>
    intro ci lo
    by_cases hk : typeKept t it
    · by_cases h1 : tier1 base it
      · simp [findLoop, hk, h1, List.filter_cons, List.find?, oFirst]
      · have h1f : tier1 base it = false := by simpa using h1
        simp only [findLoop, hk, if_true, h1f, Bool.false_eq_true, if_false, ih,
          List.filter_cons_of_pos hk, List.find?_cons, h1f]
        cases ci <;> cases lo <;>
          by_cases h2 : tier2 base it <;>
          by_cases h3 : tier3 base it <;>
          simp [h2, h3, oFirst, oFirst_assoc]
    · have hkf : typeKept t it = false := by simpa using hk
      simp [findLoop, hkf, List.filter_cons_of_neg, ih]

/-- The loop agrees with the spec-worded three-tier pick. -/
theorem findSelect_eq_spec (base t : String) (data : List Item) :
    findSelect base t data = locatorSpecPick base t data := by
  simpa [findSelect, locatorSpecPick, oFirst] using findLoop_eq base t data none none

/-! ## Retry wrapper and the locator's request phase

lib/frame_io_api._retry_request (lines 350-374), with max_retries = 3:
each attempt either returns data, raises ConnectionError/Timeout (retried;
after the last attempt converted to RuntimeError), raises HTTPError
(retried only for status 429/500/502/503/504 and only before the last
attempt, otherwise re-raised), or raises some other exception
(re-raised at once).  If the for loop ever fell through, the function
would return None; with max_retries = 3 that branch is unreachable but it
is kept in the embedding for faithfulness.

find_fio_asset's request phase (lines 480-498):
    try: data = _retry_request(_make_request)
    except RuntimeError: raise
    except Exception: return (None, None, None)
-/

inductive Attempt where
  | ok (data : List Item)
  | connErr
  | httpErr (status : Nat)
  | otherErr
deriving DecidableEq, Repr

inductive PyErr where
  | runtimeErr
  | httpErr (status : Nat)
  | otherErr
deriving DecidableEq, Repr

def retryableStatus (s : Nat) : Bool :=
  s == 429 || s == 500 || s == 502 || s == 503 || s == 504

/-- One pass of the retry loop; the second argument is the attempt index,
the third the number of loop iterations left (max_retries - attempt).
attempt < max_retries - 1 holds exactly when more than one iteration is
left. -/
def retryLoop (attempts : Nat → Attempt) (attempt : Nat) : Nat → Except PyErr (Option (List Item))
  | 0 => Except.ok none
  | remaining + 1 =>
      match attempts attempt with
      | Attempt.ok d => Except.ok (some d)
      | Attempt.connErr =>
          if remaining > 0 then retryLoop attempts (attempt + 1) remaining
          else Except.error PyErr.runtimeErr
      | Attempt.httpErr s =>
          if retryableStatus s && remaining > 0 then retryLoop attempts (attempt + 1) remaining
          else Except.error (PyErr.httpErr s)
      | Attempt.otherErr => Except.error PyErr.otherErr

def retryRequest (attempts : Nat → Attempt) : Except PyErr (Option (List Item)) :=
  retryLoop attempts 0 3

/-- find_fio_asset end to end: run the retried search request, re-raise a
RuntimeError, swallow every other exception into the no-match triple, and
otherwise select from the returned data. -/
def findFioAssetRun (attempts : Nat → Attempt) (base t : String) :
    Except PyErr (Option String × Option String × Option String) :=
  match retryRequest attempts with
  | Except.error PyErr.runtimeErr => Except.error PyErr.runtimeErr
  | Except.error _ => Except.ok (none, none, none)
  | Except.ok none => Except.ok (none, none, none)
  | Except.ok (some data) => Except.ok (findFioTriple base t data)

/-! ## Stack root resolver and version linker

lib/frame_io_api.resolve_stack_root_id (lines 566-600).  The asset-detail
fetch is modelled as a map from asset id to an optional detail record;
none stands for any exception in the requests.get / raise_for_status /
json() sequence, all of which the function catches, returning the input
id.  The function itself is total: it never raises.  The detail record
fields are the ones the function reads: type, is_versioned (truthiness of
data.get("is_versioned", False)), version_stack.id (truthiness of
(data.get("version_stack") or {}).get("id")) and original_asset_id. -/

structure AssetDetail where
  dtype : Option String
  isVersioned : Bool
  versionStackId : Option String
  originalAssetId : Option String
deriving DecidableEq, Repr

/-- Python truthiness of an optional string: None and the empty string are
falsy. -/
def truthyStr : Option String → Option String
  | none => none
  | some s => if s.isEmpty then none else some s

/-- Case 1 of the resolver: the asset is itself an un-versioned version
stack root. -/
def isRootRecord (d : AssetDetail) : Bool :=
  d.dtype == some "version_stack" && !d.isVersioned

def resolveStackRootId (fetch : String → Option AssetDetail) (assetId : String) : String :=
  match fetch assetId with
  | none => assetId
  | some d =>
      if isRootRecord d then assetId
      else
        match truthyStr d.versionStackId with
        | some r => r
        | none =>
            match truthyStr d.originalAssetId with
            | some r => r
            | none => assetId

/-- lib/frame_io_api.version_asset (lines 603-639): on a 422 response it
logs a descriptive warning before raise_for_status.  (raise_for_status
then raises for any 4xx/5xx status, and the except block re-raises after
logging, so the lib function itself does raise on 422; the orchestrator's
own version_asset method is what contains the exception, see below.) -/
def versionAssetWarns (status : Nat) : Bool := status == 422

/-- raise_for_status semantics in version_asset: an HTTPError propagates
out of the lib function for any 4xx/5xx response. -/
def versionAssetRaises (status : Nat) : Bool := 400 ≤ status && status < 600

/-! ## The conform uploader's per-candidate loop

frame_io_conform_uploader.upload_to_frameio (lines 393-456), with the
catch_exception decorator (lines 92-106).  The decorator wraps a whole
method: any exception raised inside the method is caught there, a dialog
is shown, and the wrapper returns None.  upload_to_frameio itself is
decorated, so an exception escaping its for loop ends the whole batch;
the helper methods find_a_fio_asset, version_asset, find_conforms_folder
and create_fio_folder are each decorated too, so an exception inside one
of them makes that call return None instead of raising.  The direct
client.assets.upload calls inside the loop are not wrapped by anything.

Each outward call a candidate can make is represented by a script of call
results; Call.exn means the call raises.  A successful search gives
(type, id, parent_id) of the matched asset or none for the no-match
triple (None, None, None); a raising search makes the wrapped method
return None, and unpacking None into three variables raises TypeError in
the loop body itself.  create_fio_folder assigns self.new_folder_id
before returning, so a successful create updates the orchestrator state.
-/

inductive Call (α : Type) where
  | ok : α → Call α
  | exn : Call α
deriving DecidableEq, Repr

/-- The catch_exception wrapper: the wrapped method's exception is
swallowed and the call yields None. -/
def catchW : Call α → Option α
  | Call.ok a => some a
  | Call.exn => none

structure Script where
  searchRes : Call (Option (String × String × Option String))
  uploadParentRes : Call (Option String)
  linkRes : Call Unit
  uploadStackRes : Call Unit
  findConformsRes : Call (Option String)
  createFolderRes : Call String
  uploadFolderRes : Call Unit
deriving DecidableEq, Repr

structure OrchState where
  newFolderId : Option String
deriving DecidableEq, Repr

/-- Outcome of one loop body: whether an exception escaped the body
(ending the batch at the method-level catch_exception), the state after,
the number of client.assets.upload calls made, the number of version-link
calls made and the original-asset arguments they were given. -/
structure StepResult where
  aborted : Bool
  state : OrchState
  uploads : Nat
  links : Nat
  linkArgs : List String
deriving DecidableEq, Repr

def truthyOptStr : Option String → Bool
  | none => false
  | some s => !s.isEmpty

/-- Upload into the fallback CONFORMS folder once a truthy target id is in
hand; the upload call is unwrapped, so a raise aborts the batch. -/
def fallbackUpload (st : OrchState) (sc : Script) : StepResult :=
  match sc.uploadFolderRes with
  | Call.ok _ => ⟨false, st, 1, 0, []⟩
  | Call.exn => ⟨true, st, 1, 0, []⟩

/-- target = self.create_fio_folder(self.root_asset_id, "CONFORMS"):
on success the method also assigns self.new_folder_id; on a swallowed
exception the loop shows a dialog and continues to the next file. -/
def createPhase (st : OrchState) (sc : Script) : StepResult :=
  match catchW sc.createFolderRes with
  | some fid =>
      if truthyOptStr (some fid) then fallbackUpload ⟨some fid⟩ sc
      else ⟨false, ⟨some fid⟩, 0, 0, []⟩
  | none => ⟨false, st, 0, 0, []⟩

/-- The 'if not existing_asset_id' fallback branch: use self.new_folder_id
if truthy, else find the CONFORMS folder, else create it. -/
def fallbackStep (st : OrchState) (sc : Script) : StepResult :=
  if truthyOptStr st.newFolderId then fallbackUpload st sc
  else
    match catchW sc.findConformsRes with
    | some r => if truthyOptStr r then fallbackUpload st sc else createPhase st sc
    | none => createPhase st sc

/-- One iteration of the for loop over files_to_upload. -/
def stepCandidate (st : OrchState) (sc : Script) : StepResult :=
  match catchW sc.searchRes with
  | none => ⟨true, st, 0, 0, []⟩
  | some none => fallbackStep st sc
  | some (some (ty, aid, _parent)) =>
      if aid.isEmpty then fallbackStep st sc
      else if ty == "file" then
        match sc.uploadParentRes with
        | Call.exn => ⟨true, st, 1, 0, []⟩
        | Call.ok none => ⟨false, st, 1, 0, []⟩
        | Call.ok (some _nid) =>
            match catchW sc.linkRes with
            | _ => ⟨false, st, 1, 1, [aid]⟩
      else if ty == "version_stack" then
        match sc.uploadStackRes with
        | Call.ok _ => ⟨false, st, 1, 0, []⟩
        | Call.exn => ⟨true, st, 1, 0, []⟩
      else fallbackStep st sc

/-- Number of candidates the loop body is entered for: a body that raises
is still counted (the file was visited), but the loop stops there. -/
def visitedCount (st : OrchState) : List Script → Nat
  | [] => 0
  | sc :: rest =>
      1 + (if (stepCandidate st sc).aborted then 0
           else visitedCount (stepCandidate st sc).state rest)

/-- A script none of whose unprotected calls raises: the search method
returns (possibly the no-match triple) and every upload call returns.
Version-link and folder lookup/creation calls may still raise. -/
def NoAbortScript (sc : Script) : Prop :=
  sc.searchRes ≠ Call.exn ∧ sc.uploadParentRes ≠ Call.exn ∧
    sc.uploadStackRes ≠ Call.exn ∧ sc.uploadFolderRes ≠ Call.exn

instance (sc : Script) : Decidable (NoAbortScript sc) := by
  unfold NoAbortScript; infer_instance

theorem fallbackUpload_not_aborted (st : OrchState) (sc : Script)
    (h : sc.uploadFolderRes ≠ Call.exn) : (fallbackUpload st sc).aborted = false := by
  unfold fallbackUpload
  cases hu : sc.uploadFolderRes with
  | ok _ => rfl
  | exn => exact absurd hu h

theorem createPhase_not_aborted (st : OrchState) (sc : Script)
    (h : sc.uploadFolderRes ≠ Call.exn) : (createPhase st sc).aborted = false := by
  unfold createPhase
  cases hc : catchW sc.createFolderRes with
  | none => rfl
  | some fid =>
      by_cases ht : truthyOptStr (some fid)
      · simp only [ht, if_true]; exact fallbackUpload_not_aborted _ sc h
      · simp [ht]

theorem fallbackStep_not_aborted (st : OrchState) (sc : Script)
    (h : sc.uploadFolderRes ≠ Call.exn) : (fallbackStep st sc).aborted = false := by
  unfold fallbackStep
  by_cases h0 : truthyOptStr st.newFolderId
  · simp only [h0, if_true]; exact fallbackUpload_not_aborted st sc h
  · simp only [h0, Bool.false_eq_true, if_false]
    cases hf : catchW sc.findConformsRes with
    | none => exact createPhase_not_aborted st sc h
    | some r =>
        by_cases ht : truthyOptStr r
        · simp only [ht, if_true]; exact fallbackUpload_not_aborted st sc h
        · simp only [ht, Bool.false_eq_true, if_false]
          exact createPhase_not_aborted st sc h

theorem stepCandidate_not_aborted_of_calls (st : OrchState) (sc : Script)
    (h : NoAbortScript sc) : (stepCandidate st sc).aborted = false := by
  obtain ⟨h1, h2, h3, h4⟩ := h
  unfold stepCandidate
  cases hs : sc.searchRes with
  | exn => exact absurd hs h1
  | ok r =>
      cases r with
      | none => exact fallbackStep_not_aborted st sc h4
      | some trip =>
          obtain ⟨ty, aid, par⟩ := trip
          by_cases he : aid.isEmpty
          · simp only [catchW, he, if_true]; exact fallbackStep_not_aborted st sc h4
          · simp only [catchW, he, Bool.false_eq_true, if_false]
            by_cases hf : ty == "file"
            · simp only [hf, if_true]
              cases hu : sc.uploadParentRes with
              | exn => exact absurd hu h2
              | ok v => cases v <;> rfl
            · simp only [hf, Bool.false_eq_true, if_false]
              by_cases hv : ty == "version_stack"
              · simp only [hv, if_true]
                cases hu : sc.uploadStackRes with
                | ok _ => rfl
                | exn => exact absurd hu h3
              · simp only [hv, Bool.false_eq_true, if_false]
                exact fallbackStep_not_aborted st sc h4

/-- Batch loop helper: when no script in the batch can raise out of the
loop body, every candidate is visited. -/
theorem visitedCount_eq_length (st : OrchState) (scripts : List Script)
    (h : ∀ sc ∈ scripts, NoAbortScript sc) :
    visitedCount st scripts = scripts.length := by
  induction scripts generalizing st with
  | nil => rfl
  | cons sc rest ih =>
      have hna := stepCandidate_not_aborted_of_calls st sc (h sc (by simp))
      have ih2 := ih ((stepCandidate st sc).state) (fun x hx => h x (by simp [hx]))
      simp [visitedCount, hna, ih2, Nat.add_comm]

/-- A script for every call result of which all helper calls succeed and
the search finds no match: the candidate is uploaded to the fallback
folder. -/
def allOkScript : Script :=
  ⟨Call.ok none, Call.ok none, Call.ok (), Call.ok (),
    Call.ok none, Call.ok "cf1", Call.ok ()⟩

/-- A candidate whose search matches an existing file asset and whose
upload into the matched asset's parent folder raises. -/
def c1BadScript : Script :=
  ⟨Call.ok (some ("file", "a1", some "p1")), Call.exn, Call.ok (), Call.ok (),
    Call.ok none, Call.ok "cf1", Call.ok ()⟩

/-- A candidate whose search finds no match, whose CONFORMS lookup raises
and whose CONFORMS creation succeeds. -/
def c1LookupFailScript : Script :=
  ⟨Call.ok none, Call.ok none, Call.ok (), Call.ok (),
    Call.exn, Call.ok "cf2", Call.ok ()⟩

def c1DemoScripts : List Script := [allOkScript, c1LookupFailScript]

/-- Claim C1, counterexample.  In the code the catch_exception decorator
wraps the whole of upload_to_frameio, not the loop body: in a batch of two
candidates where the first candidate's upload call raises, the exception
ends the batch and the second candidate is never visited, so only 1 of the
2 candidates gets a terminal outcome, contradicting the claim that an
exception raised while processing one candidate never prevents the
remaining candidates from being visited. -/
theorem c1_counterexample :
    visitedCount ⟨none⟩ [c1BadScript, allOkScript] = 1 ∧
      ([c1BadScript, allOkScript] : List Script).length = 2 := by
  constructor <;> decide

/-- Claim C1 (amended): for every batch of N candidates in which no search
call and no upload call raises — every lookup may still fail, by returning
the no-match triple or by a raising folder lookup, and the version-link
call may raise freely — the orchestrator visits every candidate exactly
once, producing exactly N per-file terminal outcomes.  An exception from a
search call or an upload call, however, is caught only at the whole-batch
boundary and stops the loop. -/
theorem c1_theorem (st : OrchState) (scripts : List Script)
    (h : ∀ sc ∈ scripts, NoAbortScript sc) :
    visitedCount st scripts = scripts.length :=
  visitedCount_eq_length st scripts h

/-- Claim C1 witness: two candidates, one with all calls succeeding and no
match, one whose folder lookup raises; both are visited. -/
theorem c1_theorem_witness :
    (∀ sc ∈ c1DemoScripts, NoAbortScript sc) ∧ visitedCount ⟨none⟩ c1DemoScripts = 2 :=
  ⟨by decide, (c1_theorem ⟨none⟩ c1DemoScripts (by decide)).trans rfl⟩

/-- Claim C2: when the version-link call gets a 422 response, the lib
version_asset logs the descriptive warning, and in the orchestrator the
candidate's step ends without any exception escaping (version_asset is a
catch_exception-wrapped method), with exactly one upload call (the file is
not re-uploaded) and exactly one link call (the link is not retried); the
already-performed upload is untouched. -/
theorem c2_theorem (st : OrchState) (sc : Script) (aid nid : String) (p : Option String)
    (hs : sc.searchRes = Call.ok (some ("file", aid, p)))
    (ha : aid.isEmpty = false)
    (hu : sc.uploadParentRes = Call.ok (some nid))
    (_hl : sc.linkRes = Call.exn) :
    versionAssetWarns 422 = true ∧
      stepCandidate st sc = ⟨false, st, 1, 1, [aid]⟩ := by
  refine ⟨rfl, ?_⟩
  unfold stepCandidate
  rw [hs, hu]
  simp [catchW, ha]

def c2Script : Script :=
  ⟨Call.ok (some ("file", "orig1", some "par1")), Call.ok (some "new1"), Call.exn,
    Call.ok (), Call.ok none, Call.ok "cf1", Call.ok ()⟩

/-- Claim C2 witness: a concrete matched-file candidate whose link call
raises; the step completes unaborted with one upload and one link. -/
theorem c2_theorem_witness :
    versionAssetWarns 422 = true ∧
      stepCandidate ⟨none⟩ c2Script = ⟨false, ⟨none⟩, 1, 1, ["orig1"]⟩ :=
  c2_theorem ⟨none⟩ c2Script "orig1" "new1" (some "par1") rfl rfl rfl rfl

def c3Script : Script :=
  ⟨Call.ok (some ("file", "ch1", some "par2")), Call.ok (some "new2"), Call.ok (),
    Call.ok (), Call.ok none, Call.ok "cf1", Call.ok ()⟩

/-- Service state in which the matched asset ch1 is a version-stack member
whose stack root is rt9. -/
def c3Fetch : String → Option AssetDetail := fun s =>
  if s = "ch1" then some ⟨some "file", false, some "rt9", none⟩ else none

/-- Claim C3, counterexample.  The orchestrator passes the matched asset
id directly as the original argument of the version-link call: for a
matched asset ch1 whose detail record names rt9 as its stack root, the
link is called with ch1 even though resolve_stack_root_id would return
rt9, so a non-root asset id is used directly. -/
theorem c3_counterexample :
    (stepCandidate ⟨none⟩ c3Script).linkArgs = ["ch1"] ∧
      resolveStackRootId c3Fetch "ch1" = "rt9" ∧ ("ch1" : String) ≠ "rt9" := by
  refine ⟨by decide, by decide, by decide⟩

/-- Claim C3 (amended): for every candidate that matched an existing file
asset, the orchestrator calls the version link with the matched asset id
itself as the original argument; resolve_stack_root_id exists in the API
library but is not invoked anywhere on the upload path. -/
theorem c3_theorem (st : OrchState) (sc : Script) (aid nid : String) (p : Option String)
    (hs : sc.searchRes = Call.ok (some ("file", aid, p)))
    (ha : aid.isEmpty = false)
    (hu : sc.uploadParentRes = Call.ok (some nid)) :
    (stepCandidate st sc).linkArgs = [aid] := by
  unfold stepCandidate
  rw [hs, hu]
  simp [catchW, ha]

/-- Claim C3 witness: the concrete matched candidate of the c3 scenario is
linked with the matched id ch1. -/
theorem c3_theorem_witness : (stepCandidate ⟨none⟩ c3Script).linkArgs = ["ch1"] :=
  c3_theorem ⟨none⟩ c3Script "ch1" "new2" (some "par2") rfl rfl rfl

/-- Claim C4: for every non-empty search-result list the locator selects
by the strict three-tier priority — among the type-filtered results in
service order, the first exact case-sensitive name match, else the first
case-insensitive exact match, else the first case-insensitive substring
match, else none — so ties within a tier resolve to the first result in
service order and a higher tier always outranks a lower one. -/
theorem c4_theorem (base t : String) (data : List Item) (_hne : data ≠ []) :
    findSelect base t data = locatorSpecPick base t data :=
  findSelect_eq_spec base t data

def c4Item1 : Item := ⟨some "file", some "shotA_010", some "idA", some "parA"⟩

def c4Data : List Item :=
  [c4Item1,
   ⟨some "file", some "shotA_010_v2", some "idB", some "parA"⟩,
   ⟨some "file", some "SHOTA_010", some "idC", some "parA"⟩]

/-- Claim C4 witness: on the results shotA_010, shotA_010_v2, SHOTA_010
with query shotA_010 the locator picks the first, the exact match. -/
theorem c4_theorem_witness :
    c4Data ≠ [] ∧ findSelect "shotA_010" "file" c4Data = locatorSpecPick "shotA_010" "file" c4Data ∧
      findSelect "shotA_010" "file" c4Data = some c4Item1 :=
  ⟨by decide, c4_theorem "shotA_010" "file" c4Data (by decide), by decide⟩

/-- Claim C5, counterexample.  The conform uploader splits the name at the
start of the last version marker only, so the artist suffix survives: for
shotA_010_comp_jg_v03.mp4 it derives shotA_010_comp_jg, not the claimed
shotA_010_comp. -/
theorem c5_counterexample :
    conformBaseName "shotA_010_comp_jg_v03.mp4" = "shotA_010_comp_jg" ∧
      conformBaseName "shotA_010_comp_jg_v03.mp4" ≠ "shotA_010_comp" := by
  constructor <;> decide

/-- Claim C5 (amended): the shot uploader's derivation strips the trailing
artist-and-version suffix together with the extension, giving
shotA_010_comp for shotA_010_comp_jg_v03.mp4; the conform uploader's
derivation strips only from the version marker on, giving
shotA_010_comp_jg for the same file name. -/
theorem c5_theorem :
    shotBaseName "shotA_010_comp_jg_v03.mp4" = "shotA_010_comp" ∧
      conformBaseName "shotA_010_comp_jg_v03.mp4" = "shotA_010_comp_jg" := by
  constructor <;> decide

/-- Claim C6, counterexample.  The shot uploader derives the base name via
re.split on its marker pattern, which returns the whole name, extension
included, when the pattern never matches: for render_final.mov it derives
render_final.mov, not the claimed render_final. -/
theorem c6_counterexample :
    shotBaseName "render_final.mov" = "render_final.mov" ∧
      shotBaseName "render_final.mov" ≠ "render_final" := by
  constructor <;> decide

/-- Claim C6 (amended): for a marker-less file name the conform uploader
falls back to the name without its extension (render_final for
render_final.mov), while the shot uploader keeps the full name including
the extension. -/
theorem c6_theorem :
    conformBaseName "render_final.mov" = "render_final" ∧
      shotBaseName "render_final.mov" = "render_final.mov" := by
  constructor <;> decide

/-- Claim C7: the stack root resolver is total (it never raises: every
exception of the fetch sequence is caught); when the fetch fails it
returns the input id unchanged, and when the fetched record is not itself
a stack root and carries neither a truthy version_stack.id nor a truthy
original_asset_id, it also returns the input id unchanged. -/
theorem c7_theorem (fetch : String → Option AssetDetail) (x : String) :
    (fetch x = none → resolveStackRootId fetch x = x) ∧
      (∀ d, fetch x = some d → isRootRecord d = false →
        truthyStr d.versionStackId = none → truthyStr d.originalAssetId = none →
        resolveStackRootId fetch x = x) := by
  constructor
  · intro h
    unfold resolveStackRootId
    rw [h]
  · intro d hd hroot hvs hoa
    unfold resolveStackRootId
    rw [hd]
    simp [hroot, hvs, hoa]

def c7Detail : AssetDetail := ⟨some "file", false, none, none⟩

def c7Fetch : String → Option AssetDetail := fun s =>
  if s = "plain1" then some c7Detail else none

/-- Claim C7 witness: an unfetchable id and an ordinary file record with
no stack references both resolve to themselves. -/
theorem c7_theorem_witness :
    resolveStackRootId c7Fetch "zz" = "zz" ∧ resolveStackRootId c7Fetch "plain1" = "plain1" :=
  ⟨(c7_theorem c7Fetch "zz").1 (by decide),
    (c7_theorem c7Fetch "plain1").2 c7Detail (by decide) (by decide) (by decide) (by decide)⟩

/-- Claim C8, counterexample.  An HTTP error from the search request is
not a RuntimeError, so find_fio_asset's except-Exception arm swallows it
and returns the very same (None, None, None) triple that signals no match
— here with a 404 on every attempt, indistinguishable from an empty result
list. -/
theorem c8_counterexample :
    findFioAssetRun (fun _ => Attempt.httpErr 404) "shotA_010" "file" =
        Except.ok (none, none, none) ∧
      findFioAssetRun (fun _ => Attempt.ok []) "shotA_010" "file" =
        Except.ok (none, none, none) := by
  constructor <;> rfl

/-- Claim C8 (amended): only network errors (connection/timeout on every
attempt, converted by the retry wrapper to RuntimeError) propagate out of
find_fio_asset as a distinct error; an HTTP error — retryable or not — is
swallowed by the except-Exception arm into the same (None, None, None)
result that signals no match. -/
theorem c8_theorem (base t : String) :
    (∀ attempts : Nat → Attempt, (∀ i, attempts i = Attempt.connErr) →
        findFioAssetRun attempts base t = Except.error PyErr.runtimeErr) ∧
      (∀ (attempts : Nat → Attempt) (s : Nat), (∀ i, attempts i = Attempt.httpErr s) →
        findFioAssetRun attempts base t = Except.ok (none, none, none)) := by
  constructor
  · intro attempts h
    unfold findFioAssetRun retryRequest
    simp [retryLoop, h 0, h 1, h 2]
  · intro attempts s h
    unfold findFioAssetRun retryRequest
    by_cases hr : retryableStatus s = true
    · simp [retryLoop, h 0, h 1, h 2, hr]
    · have hrf : retryableStatus s = false := by simpa using hr
      simp [retryLoop, h 0, h 1, h 2, hrf]

/-- Claim C8 witness: all-attempts connection errors surface as the
RuntimeError; an all-attempts 503 is swallowed into the no-match triple. -/
theorem c8_theorem_witness :
    findFioAssetRun (fun _ => Attempt.connErr) "q1" "file" = Except.error PyErr.runtimeErr ∧
      findFioAssetRun (fun _ => Attempt.httpErr 503) "q1" "file" = Except.ok (none, none, none) := by
  have h := c8_theorem "q1" "file"
  exact ⟨h.1 (fun _ => Attempt.connErr) (fun _ => rfl),
    h.2 (fun _ => Attempt.httpErr 503) 503 (fun _ => rfl)⟩

/-- Whether an id is safe to be referenced as a stack root: it is either
unfetchable (the resolver then keeps it unchanged) or its detail record is
an un-versioned version_stack (the resolver's case 1 keeps it unchanged). -/
def stackRefSafe (fetch : String → Option AssetDetail) (r : String) : Bool :=
  match fetch r with
  | none => true
  | some e => isRootRecord e

theorem resolve_fixed_of_safe (fetch : String → Option AssetDetail) (r : String)
    (h : stackRefSafe fetch r = true) : resolveStackRootId fetch r = r := by
  unfold resolveStackRootId
  cases hf : fetch r with
  | none => rfl
  | some e =>
      have h2 : isRootRecord e = true := by
        unfold stackRefSafe at h
        rw [hf] at h
        exact h
      simp [h2]

/-- Service state falsifying idempotence: asset a refers to b as its stack
root, but b's own record again refers onward to c. -/
def c9Fetch : String → Option AssetDetail := fun s =>
  if s = "a" then some ⟨some "file", false, some "b", none⟩
  else if s = "b" then some ⟨some "file", false, some "c", none⟩
  else none

/-- Claim C9, counterexample.  With the service's asset-detail responses
fixed, the resolver is not idempotent in general: resolving a gives b, but
resolving b gives c, because nothing in the code guarantees that the id
stored in a version_stack.id field resolves to itself. -/
theorem c9_counterexample :
    resolveStackRootId c9Fetch (resolveStackRootId c9Fetch "a") ≠
      resolveStackRootId c9Fetch "a" := by decide

/-- Claim C9 (amended): the resolver is idempotent for every service state
in which each id stored in a version_stack.id field, or in an
original_asset_id field consulted when version_stack.id is absent, is
itself either unfetchable or recorded as an un-versioned version_stack —
then resolve(resolve(x)) = resolve(x) for every asset id x. -/
theorem c9_theorem (fetch : String → Option AssetDetail)
    (h : ∀ x d, fetch x = some d → isRootRecord d = false →
      (∀ r, truthyStr d.versionStackId = some r → stackRefSafe fetch r = true) ∧
      (∀ r, truthyStr d.versionStackId = none → truthyStr d.originalAssetId = some r →
        stackRefSafe fetch r = true))
    (x : String) :
    resolveStackRootId fetch (resolveStackRootId fetch x) = resolveStackRootId fetch x := by
  cases hf : fetch x with
  | none =>
      have hx : resolveStackRootId fetch x = x := by
        unfold resolveStackRootId; rw [hf]
      rw [hx]; exact hx
  | some d =>
      by_cases hroot : isRootRecord d = true
      · have hx : resolveStackRootId fetch x = x := by
          unfold resolveStackRootId; rw [hf]; simp [hroot]
        rw [hx]; exact hx
      · have hrootf : isRootRecord d = false := by simpa using hroot
        cases hvs : truthyStr d.versionStackId with
        | some r =>
            have hx : resolveStackRootId fetch x = r := by
              unfold resolveStackRootId; rw [hf]; simp [hrootf, hvs]
            rw [hx]
            exact resolve_fixed_of_safe fetch r ((h x d hf hrootf).1 r hvs)
        | none =>
            cases hoa : truthyStr d.originalAssetId with
            | some r =>
                have hx : resolveStackRootId fetch x = r := by
                  unfold resolveStackRootId; rw [hf]; simp [hrootf, hvs, hoa]
                rw [hx]
                exact resolve_fixed_of_safe fetch r ((h x d hf hrootf).2 r hvs hoa)
            | none =>
                have hx : resolveStackRootId fetch x = x := by
                  unfold resolveStackRootId; rw [hf]; simp [hrootf, hvs, hoa]
                rw [hx]; exact hx

def c9RootDetail : AssetDetail := ⟨some "version_stack", false, none, none⟩

def c9ChildDetail : AssetDetail := ⟨some "file", false, some "b", none⟩

/-- Service state satisfying the amended hypothesis: a refers to b, and b
is recorded as an un-versioned version_stack root. -/
def c9SafeFetch : String → Option AssetDetail := fun s =>
  if s = "a" then some c9ChildDetail
  else if s = "b" then some c9RootDetail
  else none

/-- Claim C9 witness: under the safe service state the resolver is
idempotent at a. -/
theorem c9_theorem_witness :
    resolveStackRootId c9SafeFetch (resolveStackRootId c9SafeFetch "a") =
      resolveStackRootId c9SafeFetch "a" := by
  apply c9_theorem
  intro x d hx hroot
  by_cases h1 : x = "a"
  · subst h1
    have h0 : c9SafeFetch "a" = some c9ChildDetail := by decide
    have hd : c9ChildDetail = d := Option.some_inj.mp (h0.symm.trans hx)
    subst hd
    constructor
    · intro r hr
      have hb : ("b" : String) = r := by
        have : truthyStr c9ChildDetail.versionStackId = some "b" := by decide
        exact Option.some_inj.mp (this.symm.trans hr)
      subst hb
      decide
    · intro r hvs hoa
      have : truthyStr c9ChildDetail.versionStackId = some "b" := by decide
      rw [this] at hvs
      cases hvs
  · by_cases h2 : x = "b"
    · subst h2
      have h0 : c9SafeFetch "b" = some c9RootDetail := by decide
      have hd : c9RootDetail = d := Option.some_inj.mp (h0.symm.trans hx)
      subst hd
      have : isRootRecord c9RootDetail = true := by decide
      rw [this] at hroot
      cases hroot
    · have h0 : c9SafeFetch x = none := by
        unfold c9SafeFetch
        simp [h1, h2]
      rw [h0] at hx
      cases hx

/-- Claim C10: whenever a truthy type filter is supplied, every item the
locator selects has exactly that type, and when every result has a
different type the returned triple is (None, None, None). -/
theorem c10_theorem (base t : String) (data : List Item) (ht : t.isEmpty = false) :
    (∀ it, findSelect base t data = some it → it.itype = some t) ∧
      ((∀ it ∈ data, it.itype ≠ some t) → findFioTriple base t data = (none, none, none)) := by
  constructor
  · intro it hsel
    rw [findSelect_eq_spec] at hsel
    unfold locatorSpecPick at hsel
    have hmem : it ∈ data.filter (typeKept t) := by
      cases hA : (data.filter (typeKept t)).find? (tier1 base) with
      | some x =>
          rw [hA] at hsel
          cases hsel
          exact List.mem_of_find?_eq_some hA
      | none =>
          rw [hA] at hsel
          rw [oFirst_none] at hsel
          cases hB : (data.filter (typeKept t)).find? (tier2 base) with
          | some x =>
              rw [hB] at hsel
              cases hsel
              exact List.mem_of_find?_eq_some hB
          | none =>
              rw [hB] at hsel
              rw [oFirst_none] at hsel
              exact List.mem_of_find?_eq_some hsel
    have hkept : typeKept t it = true := List.of_mem_filter hmem
    unfold typeKept at hkept
    rw [ht] at hkept
    simp only [Bool.false_eq_true, if_false] at hkept
    exact eq_of_beq hkept
  · intro hall
    have hfe : data.filter (typeKept t) = [] := by
      rw [List.filter_eq_nil_iff]
      intro a ha
      unfold typeKept
      rw [ht]
      simp only [Bool.false_eq_true, if_false]
      intro hbeq
      exact hall a ha (eq_of_beq hbeq)
    unfold findFioTriple
    rw [findSelect_eq_spec]
    unfold locatorSpecPick
    rw [hfe]
    rfl

def c10Data : List Item :=
  [⟨some "version_stack", some "shotA_010", some "idV", none⟩,
   ⟨some "folder", some "shotA_010", some "idF", none⟩]

/-- Claim C10 witness: with the default filter file and results that are
only a version_stack and a folder — both exact name matches — nothing is
selected and the no-match triple is returned. -/
theorem c10_theorem_witness :
    (∀ it, findSelect "shotA_010" "file" c10Data = some it → it.itype = some "file") ∧
      findFioTriple "shotA_010" "file" c10Data = (none, none, none) := by
  have h := c10_theorem "shotA_010" "file" c10Data (by decide)
  exact ⟨h.1, h.2 (by decide)⟩
